import Mathlib

/-!
Shallow embedding of the Social-Media-API Django application
(`src/api/models.py`, `src/api/views.py`, `src/api/tasks.py`,
`src/api/urls.py`) and proofs about its behaviour.

Database tables are modelled as Lean lists kept in insertion order
(matching the default row order of the backing store with no `ORDER BY`).
`auto_now_add` timestamps are modelled by a logical clock on the
database state.  Handled HTTP responses are values of `Response`;
exceptions that no view handles (Django `Model.DoesNotExist` raised by
bare `.get`, `KeyError` on a missing URL kwarg, `TypeError` from
filtering a foreign key by `AnonymousUser`) are modelled as `Fault`
values in an `Except Fault` result, since DRF converts only `Http404`
and friends into structured responses.
-/

namespace SocialMedia

/-- A row of `CustomUser` (models.py): only the fields the claims need. -/
structure User where
  id : Nat
  username : String
  deriving DecidableEq, Repr

/-- A row of `Follow` (models.py lines 14-28): a directed follow edge.
`createdAt` is the `auto_now_add` timestamp; rows appear in the
`follows` list in creation order. -/
structure FollowEdge where
  follower : Nat
  following : Nat
  createdAt : Nat
  deriving DecidableEq, Repr

/-- A row of `Post` (models.py lines 31-47). -/
structure Post where
  id : Nat
  userId : Nat
  content : String
  createdAt : Nat
  media : Option String
  deriving DecidableEq, Repr

/-- A row of `Like` (models.py lines 50-63). -/
structure LikeEdge where
  userId : Nat
  postId : Nat
  createdAt : Nat
  deriving DecidableEq, Repr

/-- A row of `Comment` (models.py lines 66-77). -/
structure Comment where
  id : Nat
  userId : Nat
  postId : Nat
  content : String
  deriving DecidableEq, Repr

/-- The relational store.  Lists are in row-insertion order; `nextId`
supplies fresh primary keys, `clock` the server time used for
`auto_now_add` fields. -/
structure DB where
  users : List User
  follows : List FollowEdge
  posts : List Post
  likes : List LikeEdge
  comments : List Comment
  nextId : Nat
  clock : Nat
  deriving DecidableEq, Repr

/-- Body of a handled HTTP response, following the repo's conventions
(`{"error": msg}` / `{"success": msg}` / serialized resources). -/
inductive RespBody where
  | errorMsg : String → RespBody
  | successMsg : String → RespBody
  | postJson : Post → RespBody
  | postListJson : List Post → RespBody
  | userListJson : List User → RespBody
  | commentJson : Comment → RespBody
  | detailMsg : String → RespBody
  | empty : RespBody
  deriving DecidableEq, Repr

/-- A handled HTTP response. -/
structure Response where
  status : Nat
  body : RespBody
  deriving DecidableEq, Repr

/-- An exception that no view catches: it escapes as an HTTP 500 fault
rather than a structured JSON response. -/
inductive Fault where
  | doesNotExist : String → Fault
  | keyError : String → Fault
  | typeError : String → Fault
  deriving DecidableEq, Repr

/-- `get_user_model().objects.filter(username=u).first()`-style lookup;
`find?` returns the first row, matching a unique-username table. -/
def userByUsername (db : DB) (username : String) : Option User :=
  db.users.find? (fun u => u.username = username)

/-- `CustomUser.objects.get(id=uid)`-style lookup. -/
def userById (db : DB) (uid : Nat) : Option User :=
  db.users.find? (fun u => u.id = uid)

/-- `FollowView.post` (views.py lines 132-141): resolve the target via
`get_object_or_404` (handled 404), reject self-follow, then
`Follow.objects.get_or_create(follower=caller, following=target)`;
an existing edge yields the already-following error. -/
def followView (db : DB) (callerId : Nat) (username : String) : Response × DB :=
  match userByUsername db username with
  | none => ({ status := 404, body := .detailMsg "Not found." }, db)
  | some target =>
    if callerId = target.id then
      ({ status := 400, body := .errorMsg "You cannot follow yourself." }, db)
    else
      match db.follows.find? (fun f => f.follower = callerId && f.following = target.id) with
      | some _ =>
        ({ status := 400, body := .errorMsg "You are already following this user." }, db)
      | none =>
        ({ status := 201, body := .successMsg ("You are now following " ++ username ++ ".") },
         { db with
            follows := db.follows ++ [{ follower := callerId, following := target.id,
                                        createdAt := db.clock }],
            clock := db.clock + 1 })

/-- `UnfollowView.post` (views.py lines 161-167): resolve the target,
check `Follow.objects.filter(...).exists()`, and on success delete every
matching row (`queryset.delete()`). -/
def unfollowView (db : DB) (callerId : Nat) (username : String) : Response × DB :=
  match userByUsername db username with
  | none => ({ status := 404, body := .detailMsg "Not found." }, db)
  | some target =>
    if (db.follows.filter (fun f => f.follower = callerId && f.following = target.id)).isEmpty then
      ({ status := 400, body := .errorMsg "You are not following this user." }, db)
    else
      ({ status := 204, body := .successMsg ("You have unfollowed " ++ username ++ ".") },
       { db with
          follows := db.follows.filter
            (fun f => !(f.follower = callerId && f.following = target.id)) })

/-- `FollowingListView.get_queryset` (views.py lines 181-184): collect the
followed ids, then `User.objects.filter(id__in=ids)` — the result comes
back in user-table order, not follow-edge order. -/
def followingListView (db : DB) (callerId : Nat) : List User :=
  let ids := (db.follows.filter (fun f => f.follower = callerId)).map (fun f => f.following)
  db.users.filter (fun u => ids.contains u.id)

/-- `FollowersListView.get_queryset` (views.py lines 198-201). -/
def followersListView (db : DB) (callerId : Nat) : List User :=
  let ids := (db.follows.filter (fun f => f.following = callerId)).map (fun f => f.follower)
  db.users.filter (fun u => ids.contains u.id)

/-- `PostViewSet.get_queryset` (views.py lines 263-267).  With a
`username` query parameter it does `User.objects.get(username=...)`
(a bare `.get`, so a missing user raises unhandled `DoesNotExist`) and
filters posts by that user; without the parameter it filters by
`request.user`, which for an anonymous caller raises `TypeError`
(filtering a foreign key by `AnonymousUser`).  Neither branch orders
the rows: the class-level `order_by("-created_at")` queryset is
shadowed by this override. -/
def postGetQueryset (db : DB) (caller : Option Nat) (usernameParam : Option String) :
    Except Fault (List Post) :=
  match usernameParam with
  | some uname =>
    match userByUsername db uname with
    | none => .error (.doesNotExist "CustomUser matching query does not exist.")
    | some u => .ok (db.posts.filter (fun p => p.userId = u.id))
  | none =>
    match caller with
    | none => .error (.typeError "Field id expected a number but got AnonymousUser.")
    | some uid => .ok (db.posts.filter (fun p => p.userId = uid))

/-- The `list` action of `PostViewSet` (GET /posts).  The
`IsAuthenticatedOrReadOnly` permission admits anonymous reads, after
which `get_queryset` runs. -/
def postList (db : DB) (caller : Option Nat) (usernameParam : Option String) :
    Except Fault (Response × DB) :=
  match postGetQueryset db caller usernameParam with
  | .error f => .error f
  | .ok qs => .ok ({ status := 200, body := .postListJson qs }, db)

/-- The `create` action of `PostViewSet` with `perform_create`
(views.py lines 260-261): requires authentication, then saves with
`user=request.user` regardless of the payload. -/
def postCreate (db : DB) (caller : Option Nat) (content : String) (media : Option String) :
    Response × DB :=
  match caller with
  | none =>
    ({ status := 401, body := .detailMsg "Authentication credentials were not provided." }, db)
  | some uid =>
    let p : Post := { id := db.nextId, userId := uid, content := content,
                      createdAt := db.clock, media := media }
    ({ status := 201, body := .postJson p },
     { db with posts := db.posts ++ [p], nextId := db.nextId + 1, clock := db.clock + 1 })

/-- The `update` action of `PostViewSet` (PUT /posts/{id}).
`IsAuthenticatedOrReadOnly` rejects anonymous writers with 401; then
`get_object` looks the pk up inside `get_queryset()` (handled 404 when
absent there) and `check_object_permissions` passes unconditionally —
the viewset carries no ownership permission, so any authenticated
caller who reaches the object may write it. -/
def postUpdate (db : DB) (caller : Option Nat) (usernameParam : Option String)
    (postId : Nat) (newContent : String) (newMedia : Option String) :
    Except Fault (Response × DB) :=
  match caller with
  | none =>
    .ok ({ status := 401, body := .detailMsg "Authentication credentials were not provided." }, db)
  | some _ =>
    match postGetQueryset db caller usernameParam with
    | .error f => .error f
    | .ok qs =>
      match qs.find? (fun p => p.id = postId) with
      | none => .ok ({ status := 404, body := .detailMsg "Not found." }, db)
      | some p =>
        let updated : Post := { p with content := newContent, media := newMedia }
        .ok ({ status := 200, body := .postJson updated },
             { db with posts := db.posts.map (fun q => if q.id = p.id then updated else q) })

/-- The `destroy` action of `PostViewSet` (DELETE /posts/{id}); object
lookup as in `postUpdate`, then `instance.delete()`, which cascades to
the post's likes and comments (`on_delete=CASCADE`). -/
def postDestroy (db : DB) (caller : Option Nat) (usernameParam : Option String)
    (postId : Nat) : Except Fault (Response × DB) :=
  match caller with
  | none =>
    .ok ({ status := 401, body := .detailMsg "Authentication credentials were not provided." }, db)
  | some _ =>
    match postGetQueryset db caller usernameParam with
    | .error f => .error f
    | .ok qs =>
      match qs.find? (fun p => p.id = postId) with
      | none => .ok ({ status := 404, body := .detailMsg "Not found." }, db)
      | some p =>
        .ok ({ status := 204, body := .empty },
             { db with
                posts := db.posts.filter (fun q => q.id ≠ p.id),
                likes := db.likes.filter (fun l => l.postId ≠ p.id),
                comments := db.comments.filter (fun c => c.postId ≠ p.id) })

/-- `LikeView.post` (views.py lines 325-340): a bare
`Post.objects.get(id=post_id)` — a missing post raises
`Post.DoesNotExist`, which no handler catches — then
`Like.objects.get_or_create(user, post)`; an existing row is deleted
(`like.delete()` removes exactly the row that was retrieved). -/
def likeView (db : DB) (callerId : Nat) (postId : Nat) : Except Fault (Response × DB) :=
  match db.posts.find? (fun p => p.id = postId) with
  | none => .error (.doesNotExist "Post matching query does not exist.")
  | some post =>
    match db.likes.find? (fun l => l.userId = callerId && l.postId = post.id) with
    | some _ =>
      .ok ({ status := 204, body := .successMsg "Post unliked." },
           { db with
              likes := db.likes.eraseP (fun l => l.userId = callerId && l.postId = post.id) })
    | none =>
      .ok ({ status := 201, body := .successMsg "Post liked." },
           { db with
              likes := db.likes ++ [{ userId := callerId, postId := post.id,
                                      createdAt := db.clock }],
              clock := db.clock + 1 })

/-- `CommentViewSet.perform_create` (views.py lines 380-382) as reached
through a request: it reads `self.kwargs['post_id']`, the `post_id` URL
kwarg.  `urlKwargPostId` carries that kwarg when the route supplies one;
a missing kwarg raises `KeyError`, which nothing handles. -/
def commentPerformCreate (db : DB) (callerId : Nat) (urlKwargPostId : Option Nat)
    (content : String) : Except Fault (Response × DB) :=
  match urlKwargPostId with
  | none => .error (.keyError "post_id")
  | some pid =>
    match db.posts.find? (fun p => p.id = pid) with
    | none => .error (.doesNotExist "Post matching query does not exist.")
    | some post =>
      let c : Comment := { id := db.nextId, userId := callerId, postId := post.id,
                           content := content }
      .ok ({ status := 201, body := .commentJson c },
           { db with comments := db.comments ++ [c], nextId := db.nextId + 1 })

/-- The `post_id` URL kwarg that `DefaultRouter` (urls.py lines 25-27)
provides on the comment-creation route `POST /comments/`: the router's
list route pattern is plain `comments/` and captures no kwarg at all. -/
def commentListRouteKwargPostId : Option Nat := none

/-- `POST /comments/` as actually wired (urls.py lines 25-27 routing into
views.py lines 375-382): authenticated creation through the router's
kwarg-free list route.  The body's `post` field is validated by the
serializer but `perform_create` ignores it and reads the URL kwarg. -/
def commentCreateEndpoint (db : DB) (callerId : Nat) (bodyPostId : Nat) (content : String) :
    Except Fault (Response × DB) :=
  match db.posts.find? (fun p => p.id = bodyPostId) with
  | none => .ok ({ status := 400, body := .errorMsg "Invalid pk - object does not exist." }, db)
  | some _ => commentPerformCreate db callerId commentListRouteKwargPostId content

/-- `create_scheduled_post` (tasks.py lines 6-9): the Celery task body,
`CustomUser.objects.get(id=user_id)` then `Post.objects.create(...)`. -/
def create_scheduled_post (db : DB) (userId : Nat) (content : String) (media : Option String) :
    Except Fault DB :=
  match userById db userId with
  | none => .error (.doesNotExist "CustomUser matching query does not exist.")
  | some u =>
    .ok { db with
            posts := db.posts ++ [{ id := db.nextId, userId := u.id, content := content,
                                    createdAt := db.clock, media := media }],
            nextId := db.nextId + 1, clock := db.clock + 1 }

/-- A deferred invocation of `create_scheduled_post` sitting on the
durable queue, to run at or after `executeAfter`. -/
structure SchedTask where
  userId : Nat
  content : String
  media : Option String
  executeAfter : Nat
  deriving DecidableEq, Repr

/-- Database plus the scheduling queue. -/
structure SchedState where
  db : DB
  queue : List SchedTask
  deriving DecidableEq, Repr

/-- Modelled from the spec: the `POST /schedule-post` view is not among
the source files; spec §4.6/§6 — `scheduleTime` must parse as an
absolute timestamp, the request fails with ValidationError (400) if it
is in the past relative to the server clock at submission and no task
is enqueued; otherwise a deferred task invoking `create_scheduled_post`
is enqueued to run at or after `scheduleTime`, and the request is
accepted with 201. -/
def schedulePost (s : SchedState) (callerId : Nat) (content : String) (media : Option String)
    (scheduleTime : Nat) : Response × SchedState :=
  if scheduleTime < s.db.clock then
    ({ status := 400, body := .errorMsg "schedule_time is in the past." }, s)
  else
    ({ status := 201, body := .successMsg "Post scheduled." },
     { s with queue := s.queue ++ [{ userId := callerId, content := content, media := media,
                                     executeAfter := scheduleTime }] })

/-- Modelled from the spec: the worker pool drains the queue at time
`now`, executing each task whose `executeAfter` has passed exactly once
(spec §4.6: the deferred task "invokes CreatePost(...) exactly once")
and leaving not-yet-due tasks queued. -/
def runQueue (db : DB) (now : Nat) : List SchedTask → DB × List SchedTask
  | [] => (db, [])
  | t :: rest =>
    if t.executeAfter ≤ now then
      let db2 := match create_scheduled_post { db with clock := now } t.userId t.content t.media with
                 | .ok d => d
                 | .error _ => db
      runQueue db2 now rest
    else
      let (db3, remaining) := runQueue db now rest
      (db3, t :: remaining)

/-- One pass of the scheduling worker at time `now`. -/
def runDueTasks (s : SchedState) (now : Nat) : SchedState :=
  let (db2, q2) := runQueue s.db now s.queue
  { db := db2, queue := q2 }

/-- Number of `Like` rows for a (user, post) pair. -/
def countLikes (db : DB) (uid pid : Nat) : Nat :=
  (db.likes.filter (fun l => l.userId = uid && l.postId = pid)).length

/-- The database after one `LikeView.post` request (the response is
discarded; an unhandled fault leaves the store untouched because the
exception fires before any write). -/
def likeStep (uid pid : Nat) (db : DB) : DB :=
  match likeView db uid pid with
  | .ok (_, db2) => db2
  | .error _ => db

/-- `n` successive `LikeView.post` requests by the same user on the
same post. -/
def likeIter (uid pid : Nat) : Nat → DB → DB
  | 0, db => db
  | n + 1, db => likeIter uid pid n (likeStep uid pid db)

/-- The spec's words for `ListFollowing(accountId)`: the followed
accounts ordered by follow-edge creation time ascending (edge list
order), to be compared with `followingListView`. -/
def followingByEdgeOrderSpec (db : DB) (callerId : Nat) : List User :=
  ((db.follows.filter (fun f => f.follower = callerId)).map (fun f => f.following)).filterMap
    (fun i => userById db i)

/-- No two `Follow` rows share the same (follower, following) pair —
models the `unique_together = ("follower", "following")` constraint of
models.py line 28. -/
def followPairUnique (db : DB) : Prop :=
  db.follows.Pairwise (fun e1 e2 => ¬(e1.follower = e2.follower ∧ e1.following = e2.following))

/-- No two `Like` rows share the same (user, post) pair — models the
`unique_together = ("user", "post")` constraint of models.py line 63. -/
def likePairUnique (db : DB) : Prop :=
  db.likes.Pairwise (fun e1 e2 => ¬(e1.userId = e2.userId ∧ e1.postId = e2.postId))

/-- The edge-uniqueness invariant of the store. -/
def EdgeInv (db : DB) : Prop := followPairUnique db ∧ likePairUnique db

/- Concrete stores used to evaluate the endpoints at specific inputs. -/

def exUser1 : User := { id := 1, username := "user1" }

def exUser2 : User := { id := 2, username := "user2" }

def exUser3 : User := { id := 3, username := "user3" }

/-- Two users, no content. -/
def exDB : DB :=
  { users := [exUser1, exUser2], follows := [], posts := [], likes := [], comments := [],
    nextId := 10, clock := 5 }

def exPost1 : Post := { id := 10, userId := 1, content := "Post 1", createdAt := 0, media := none }

def exPost2 : Post := { id := 11, userId := 2, content := "Post 2", createdAt := 1, media := none }

/-- Two users with one post each. -/
def exDBposts : DB :=
  { users := [exUser1, exUser2], follows := [], posts := [exPost1, exPost2], likes := [],
    comments := [], nextId := 20, clock := 7 }

/-- Three users; user 1 followed user 3 first, then user 2, so the
edge-creation order ([3, 2]) differs from the user-table order. -/
def exDBfollows : DB :=
  { users := [exUser1, exUser2, exUser3],
    follows := [{ follower := 1, following := 3, createdAt := 0 },
                { follower := 1, following := 2, createdAt := 1 }],
    posts := [], likes := [], comments := [], nextId := 30, clock := 9 }

/-! ## General lemmas about the embedding -/

/-- Erasing the first `p`-match drops exactly one element from the
`p`-filtered part of a list. -/
theorem filter_eraseP_eq_drop {α : Type} (p : α → Bool) (l : List α) :
    (l.eraseP p).filter p = (l.filter p).drop 1 := by
  induction l with
  | nil => rfl
  | cons a t ih =>
    by_cases h : p a
    · simp [List.eraseP_cons, h, List.filter_cons]
    · simp [List.eraseP_cons, h, List.filter_cons, ih]

/-- `find?` over an append skips a prefix with no match. -/
theorem find?_append_of_none {α : Type} {p : α → Bool} {l1 : List α} (l2 : List α)
    (h : l1.find? p = none) : (l1 ++ l2).find? p = l2.find? p := by
  rw [List.find?_append, h, Option.none_or]

/-- A successful `LikeView.post` never touches the post table. -/
theorem likeView_ok_posts {db : DB} {uid pid : Nat} {r : Response} {db2 : DB}
    (h : likeView db uid pid = .ok (r, db2)) : db2.posts = db.posts := by
  unfold likeView at h
  split at h
  · cases h
  · split at h
    · simp only [Except.ok.injEq, Prod.mk.injEq] at h
      rw [← h.2]
    · simp only [Except.ok.injEq, Prod.mk.injEq] at h
      rw [← h.2]

/-- A `likeStep` never touches the post table. -/
theorem likeStep_posts (uid pid : Nat) (db : DB) : (likeStep uid pid db).posts = db.posts := by
  unfold likeStep
  cases h : likeView db uid pid with
  | error f => rfl
  | ok rdb =>
    obtain ⟨r, db2⟩ := rdb
    exact likeView_ok_posts h

/-! ## Theorems for the claims -/

/-- C6: for every account A, Follow(A, A) — a follow request whose
target username resolves to the caller itself — fails with the
self-follow error (HTTP 400 with an error body) and leaves the store
unchanged, so no FollowEdge from A to A is created. -/
theorem follow_self_is_rejected (db : DB) (callerId : Nat) (uname : String) (u : User)
    (hu : userByUsername db uname = some u) (hself : u.id = callerId) :
    followView db callerId uname =
      ({ status := 400, body := .errorMsg "You cannot follow yourself." }, db) := by
  subst hself
  simp [followView, hu]

/-- Witness for `follow_self_is_rejected` at a concrete store. -/
theorem follow_self_is_rejected_witness :
    userByUsername exDB "user1" = some exUser1 ∧ exUser1.id = 1 ∧
    followView exDB 1 "user1" =
      ({ status := 400, body := .errorMsg "You cannot follow yourself." }, exDB) :=
  ⟨by rfl, by rfl, follow_self_is_rejected exDB 1 "user1" exUser1 (by rfl) (by rfl)⟩

/-- C7: for distinct accounts A and B (the target resolving by
username, with no pre-existing edge), a first Follow(A, B) succeeds
with 201; repeating it fails with the already-following error and
leaves the store unchanged; Unfollow(A, B) without a prior edge fails
with the not-following error and changes nothing; and Unfollow(A, B)
after the successful follow deletes that edge, restoring the original
edge set. -/
theorem follow_unfollow_protocol (db : DB) (a : Nat) (uname : String) (b : User)
    (hb : userByUsername db uname = some b) (hne : a ≠ b.id)
    (hnone : db.follows.find? (fun f => f.follower = a && f.following = b.id) = none) :
    (followView db a uname).1.status = 201 ∧
    followView (followView db a uname).2 a uname =
      ({ status := 400, body := .errorMsg "You are already following this user." },
       (followView db a uname).2) ∧
    unfollowView db a uname =
      ({ status := 400, body := .errorMsg "You are not following this user." }, db) ∧
    (unfollowView (followView db a uname).2 a uname).1.status = 204 ∧
    (unfollowView (followView db a uname).2 a uname).2.follows = db.follows := by
  have hall : ∀ f ∈ db.follows, ¬ ((f.follower = a && f.following = b.id) = true) :=
    List.find?_eq_none.mp hnone
  set e : FollowEdge := { follower := a, following := b.id, createdAt := db.clock } with he
  set db1 : DB := { db with follows := db.follows ++ [e], clock := db.clock + 1 } with hdb1
  have hfollow1 : followView db a uname =
      ({ status := 201, body := .successMsg ("You are now following " ++ uname ++ ".") }, db1) := by
    simp [followView, hb, hne, hnone, hdb1, he]
  have hb1 : userByUsername db1 uname = some b := hb
  have hfind2 : db1.follows.find? (fun f => f.follower = a && f.following = b.id) = some e := by
    show (db.follows ++ [e]).find? _ = some e
    rw [find?_append_of_none _ hnone]
    simp [he]
  have hfollow2 : followView db1 a uname =
      ({ status := 400, body := .errorMsg "You are already following this user." }, db1) := by
    simp [followView, hb1, hne, hfind2]
  have hfilter0 : db.follows.filter (fun f => f.follower = a && f.following = b.id) = [] :=
    List.filter_eq_nil_iff.mpr hall
  have hunfollow0 : unfollowView db a uname =
      ({ status := 400, body := .errorMsg "You are not following this user." }, db) := by
    simp [unfollowView, hb, hfilter0]
  have hfilter2 : db1.follows.filter (fun f => f.follower = a && f.following = b.id) = [e] := by
    show (db.follows ++ [e]).filter _ = [e]
    rw [List.filter_append, hfilter0]
    simp [he]
  have hkeep : db1.follows.filter (fun f => !(f.follower = a && f.following = b.id)) =
      db.follows := by
    show (db.follows ++ [e]).filter _ = db.follows
    rw [List.filter_append]
    have h1 : db.follows.filter (fun f => !(f.follower = a && f.following = b.id)) =
        db.follows := by
      refine List.filter_eq_self.mpr ?_
      intro f hf
      have h2 := hall f hf
      simp only [Bool.not_eq_true] at h2
      simp [h2]
    have h3 : [e].filter (fun f => !(f.follower = a && f.following = b.id)) = [] := by
      simp [he]
    rw [h1, h3, List.append_nil]
  have hunfollow2 : unfollowView db1 a uname =
      ({ status := 204, body := .successMsg ("You have unfollowed " ++ uname ++ ".") },
       { db1 with follows := db.follows }) := by
    simp [unfollowView, hb1, hfilter2, hkeep]
    intro f hf
    have h2 := hall f hf
    by_cases hfa : f.follower = a
    · refine Or.inr ?_
      intro hfb
      exact h2 (by simp [hfa, hfb])
    · exact Or.inl hfa
  refine ⟨by rw [hfollow1], ?_, hunfollow0, ?_, ?_⟩
  · rw [hfollow1, hfollow2]
  · rw [hfollow1, hunfollow2]
  · rw [hfollow1, hunfollow2]

/-- Witness for `follow_unfollow_protocol` at a concrete store. -/
theorem follow_unfollow_protocol_witness :
    userByUsername exDB "user2" = some exUser2 ∧ (1 : Nat) ≠ exUser2.id ∧
    exDB.follows.find? (fun f => f.follower = 1 && f.following = exUser2.id) = none ∧
    ((followView exDB 1 "user2").1.status = 201 ∧
     followView (followView exDB 1 "user2").2 1 "user2" =
       ({ status := 400, body := .errorMsg "You are already following this user." },
        (followView exDB 1 "user2").2) ∧
     unfollowView exDB 1 "user2" =
       ({ status := 400, body := .errorMsg "You are not following this user." }, exDB) ∧
     (unfollowView (followView exDB 1 "user2").2 1 "user2").1.status = 204 ∧
     (unfollowView (followView exDB 1 "user2").2 1 "user2").2.follows = exDB.follows) :=
  ⟨by rfl, by decide, by rfl,
   follow_unfollow_protocol exDB 1 "user2" exUser2 (by rfl) (by decide) (by rfl)⟩

/-- `LikeView.post` when the post exists and no like row is present:
`get_or_create` creates the row and the view answers 201 "liked". -/
theorem likeView_of_not_liked {db : DB} {uid pid : Nat} {post : Post}
    (hpost : db.posts.find? (fun p => p.id = pid) = some post)
    (h0 : db.likes.find? (fun l => l.userId = uid && l.postId = pid) = none) :
    likeView db uid pid =
      .ok ({ status := 201, body := .successMsg "Post liked." },
           { db with
              likes := db.likes ++ [{ userId := uid, postId := pid, createdAt := db.clock }],
              clock := db.clock + 1 }) := by
  have hid : post.id = pid := by simpa using List.find?_some hpost
  simp [likeView, hpost, hid, h0]

/-- `LikeView.post` when the post exists and a like row is present:
the retrieved row is deleted and the view answers 204 "unliked". -/
theorem likeView_of_liked {db : DB} {uid pid : Nat} {post : Post} {lk : LikeEdge}
    (hpost : db.posts.find? (fun p => p.id = pid) = some post)
    (h1 : db.likes.find? (fun l => l.userId = uid && l.postId = pid) = some lk) :
    likeView db uid pid =
      .ok ({ status := 204, body := .successMsg "Post unliked." },
           { db with likes := db.likes.eraseP (fun l => l.userId = uid && l.postId = pid) }) := by
  have hid : post.id = pid := by simpa using List.find?_some hpost
  simp [likeView, hpost, hid, h1]

/-- No like row for the pair iff the pair's like count is zero. -/
theorem countLikes_eq_zero_iff (db : DB) (uid pid : Nat) :
    countLikes db uid pid = 0 ↔
      db.likes.find? (fun l => l.userId = uid && l.postId = pid) = none := by
  rw [countLikes, List.length_eq_zero, List.filter_eq_nil_iff, List.find?_eq_none]

/-- One like request flips a zero count to one and otherwise removes
one row. -/
theorem countLikes_likeStep {db : DB} {uid pid : Nat} {post : Post}
    (hpost : db.posts.find? (fun p => p.id = pid) = some post) :
    countLikes (likeStep uid pid db) uid pid =
      if countLikes db uid pid = 0 then 1 else countLikes db uid pid - 1 := by
  by_cases h0 : countLikes db uid pid = 0
  · rw [if_pos h0]
    have hf := (countLikes_eq_zero_iff db uid pid).mp h0
    have hnil : db.likes.filter (fun l => l.userId = uid && l.postId = pid) = [] := by
      rw [countLikes] at h0
      exact List.length_eq_zero.mp h0
    simp only [likeStep, likeView_of_not_liked hpost hf]
    rw [countLikes]
    show ((db.likes ++ [({ userId := uid, postId := pid, createdAt := db.clock } : LikeEdge)]).filter _).length = 1
    rw [List.filter_append, hnil]
    simp
  · rw [if_neg h0]
    cases hf : db.likes.find? (fun l => l.userId = uid && l.postId = pid) with
    | none => exact absurd ((countLikes_eq_zero_iff db uid pid).mpr hf) h0
    | some lk =>
      simp only [likeStep, likeView_of_liked hpost hf]
      rw [countLikes]
      show ((db.likes.eraseP _).filter _).length = _
      rw [filter_eraseP_eq_drop, List.length_drop]
      rfl

/-- Starting from at most one like row, `n` successive like requests
leave `(count + n) % 2` rows for the pair. -/
theorem countLikes_likeIter {uid pid : Nat} :
    ∀ (n : Nat) (db : DB) (post : Post),
      db.posts.find? (fun p => p.id = pid) = some post →
      countLikes db uid pid ≤ 1 →
      countLikes (likeIter uid pid n db) uid pid = (countLikes db uid pid + n) % 2 := by
  intro n
  induction n with
  | zero =>
    intro db post hpost hle
    rw [likeIter]
    omega
  | succ n ih =>
    intro db post hpost hle
    rw [likeIter]
    have hpost' : (likeStep uid pid db).posts.find? (fun p => p.id = pid) = some post := by
      rw [likeStep_posts]
      exact hpost
    have hstep := @countLikes_likeStep db uid pid post hpost
    have hle' : countLikes (likeStep uid pid db) uid pid ≤ 1 := by
      rw [hstep]
      split <;> omega
    rw [ih (likeStep uid pid db) post hpost' hle', hstep]
    split <;> omega

/-- C3: for an existing post P and account A currently not liking P,
ToggleLike(A, P) twice returns the like state for (A, P) to the
original no-like state (the first call creates the row and reports
"liked" with 201, the second deletes it and reports "unliked" with
204, restoring the original like table); and any odd number of calls
leaves exactly one like row by A on P while any even number leaves
none. -/
theorem toggle_like_involution (db : DB) (uid pid : Nat) (post : Post)
    (hpost : db.posts.find? (fun p => p.id = pid) = some post)
    (h0 : countLikes db uid pid = 0) :
    (∃ db1, likeView db uid pid =
        .ok ({ status := 201, body := .successMsg "Post liked." }, db1) ∧
      ∃ db2, likeView db1 uid pid =
          .ok ({ status := 204, body := .successMsg "Post unliked." }, db2) ∧
        db2.likes = db.likes) ∧
    (∀ n, Odd n → countLikes (likeIter uid pid n db) uid pid = 1) ∧
    (∀ n, Even n → countLikes (likeIter uid pid n db) uid pid = 0) := by
  have hf := (countLikes_eq_zero_iff db uid pid).mp h0
  have hall : ∀ l ∈ db.likes, ¬ ((l.userId = uid && l.postId = pid) = true) :=
    List.find?_eq_none.mp hf
  set e : LikeEdge := { userId := uid, postId := pid, createdAt := db.clock } with he
  set db1 : DB := { db with likes := db.likes ++ [e], clock := db.clock + 1 } with hdb1
  refine ⟨⟨db1, ?_, ?_⟩, ?_, ?_⟩
  · exact likeView_of_not_liked hpost hf
  · have hpost1 : db1.posts.find? (fun p => p.id = pid) = some post := hpost
    have hfind1 : db1.likes.find? (fun l => l.userId = uid && l.postId = pid) = some e := by
      show (db.likes ++ [e]).find? _ = some e
      rw [find?_append_of_none _ hf]
      simp [he]
    refine ⟨{ db1 with likes := db1.likes.eraseP (fun l => l.userId = uid && l.postId = pid) },
            likeView_of_liked hpost1 hfind1, ?_⟩
    show (db.likes ++ [e]).eraseP _ = db.likes
    rw [List.eraseP_append_right _ hall]
    simp [he]
  · intro n hn
    rw [countLikes_likeIter n db post hpost (by omega), h0]
    have := Nat.odd_iff.mp hn
    omega
  · intro n hn
    rw [countLikes_likeIter n db post hpost (by omega), h0]
    have := Nat.even_iff.mp hn
    omega

/-- Witness for `toggle_like_involution` at a concrete store. -/
theorem toggle_like_involution_witness :
    exDBposts.posts.find? (fun p => p.id = 10) = some exPost1 ∧
    countLikes exDBposts 1 10 = 0 ∧
    ((∃ db1, likeView exDBposts 1 10 =
        .ok ({ status := 201, body := .successMsg "Post liked." }, db1) ∧
      ∃ db2, likeView db1 1 10 =
          .ok ({ status := 204, body := .successMsg "Post unliked." }, db2) ∧
        db2.likes = exDBposts.likes) ∧
     (∀ n, Odd n → countLikes (likeIter 1 10 n exDBposts) 1 10 = 1) ∧
     (∀ n, Even n → countLikes (likeIter 1 10 n exDBposts) 1 10 = 0)) :=
  ⟨by rfl, by rfl, toggle_like_involution exDBposts 1 10 exPost1 (by rfl) (by rfl)⟩

/-- `followView` never touches the like table. -/
theorem followView_likes (db : DB) (a : Nat) (uname : String) :
    (followView db a uname).2.likes = db.likes := by
  unfold followView
  split
  · rfl
  · split
    · rfl
    · split
      · rfl
      · rfl

/-- `followView` preserves uniqueness of (follower, following) pairs:
`get_or_create` appends an edge only when `find?` saw none. -/
theorem followPairUnique_followView (db : DB) (a : Nat) (uname : String)
    (h : followPairUnique db) : followPairUnique (followView db a uname).2 := by
  cases hb : userByUsername db uname with
  | none =>
    have hv : (followView db a uname).2 = db := by simp [followView, hb]
    rwa [hv]
  | some b =>
    by_cases hself : a = b.id
    · have hv : (followView db a uname).2 = db := by simp [followView, hb, hself]
      rwa [hv]
    · cases hf : db.follows.find? (fun f => f.follower = a && f.following = b.id) with
      | some x =>
        have hv : (followView db a uname).2 = db := by simp [followView, hb, hself, hf]
        rwa [hv]
      | none =>
        have hv : (followView db a uname).2.follows =
            db.follows ++ [{ follower := a, following := b.id, createdAt := db.clock }] := by
          simp [followView, hb, hself, hf]
        have hall := List.find?_eq_none.mp hf
        unfold followPairUnique at h ⊢
        rw [hv, List.pairwise_append]
        refine ⟨h, by simp, ?_⟩
        intro f hf1 g hg1
        simp only [List.mem_singleton] at hg1
        subst hg1
        intro hcon
        exact hall f hf1 (by simp [hcon.1, hcon.2])

/-- `unfollowView` preserves the edge-uniqueness invariant: it only
ever removes follow rows. -/
theorem EdgeInv_unfollowView (db : DB) (a : Nat) (uname : String)
    (h : EdgeInv db) : EdgeInv (unfollowView db a uname).2 := by
  obtain ⟨h1, h2⟩ := h
  unfold unfollowView
  split
  · exact ⟨h1, h2⟩
  · split
    · exact ⟨h1, h2⟩
    · exact ⟨h1.sublist (List.filter_sublist _), h2⟩

/-- A successful `likeView` preserves the edge-uniqueness invariant:
`get_or_create` appends a like row only when `find?` saw none, and the
unlike path only erases. -/
theorem EdgeInv_likeView (db : DB) (uid pid : Nat) (r : Response) (db2 : DB)
    (h : EdgeInv db) (hok : likeView db uid pid = .ok (r, db2)) : EdgeInv db2 := by
  obtain ⟨h1, h2⟩ := h
  cases hp : db.posts.find? (fun p => p.id = pid) with
  | none =>
    unfold likeView at hok
    rw [hp] at hok
    cases hok
  | some post =>
    cases hl : db.likes.find? (fun l => l.userId = uid && l.postId = pid) with
    | some lk =>
      rw [likeView_of_liked hp hl] at hok
      simp only [Except.ok.injEq, Prod.mk.injEq] at hok
      obtain ⟨-, hdb⟩ := hok
      subst hdb
      exact ⟨h1, h2.sublist (List.eraseP_sublist _)⟩
    | none =>
      rw [likeView_of_not_liked hp hl] at hok
      simp only [Except.ok.injEq, Prod.mk.injEq] at hok
      obtain ⟨-, hdb⟩ := hok
      subst hdb
      refine ⟨h1, ?_⟩
      have hall := List.find?_eq_none.mp hl
      show (db.likes ++
        [({ userId := uid, postId := pid, createdAt := db.clock } : LikeEdge)]).Pairwise _
      rw [List.pairwise_append]
      refine ⟨h2, by simp, ?_⟩
      intro x hx y hy
      simp only [List.mem_singleton] at hy
      subst hy
      intro hcon
      exact hall x hx (by simp [hcon.1, hcon.2])

/-- A successful `postUpdate` preserves the edge-uniqueness invariant
(it rewrites only post rows). -/
theorem EdgeInv_postUpdate (db : DB) (caller : Option Nat) (up : Option String)
    (pid : Nat) (c : String) (m : Option String) (r : Response) (db2 : DB)
    (h : EdgeInv db) (hok : postUpdate db caller up pid c m = .ok (r, db2)) : EdgeInv db2 := by
  unfold postUpdate at hok
  split at hok
  · simp only [Except.ok.injEq, Prod.mk.injEq] at hok
    obtain ⟨-, hdb⟩ := hok
    subst hdb
    exact h
  · split at hok
    · cases hok
    · split at hok
      · simp only [Except.ok.injEq, Prod.mk.injEq] at hok
        obtain ⟨-, hdb⟩ := hok
        subst hdb
        exact h
      · simp only [Except.ok.injEq, Prod.mk.injEq] at hok
        obtain ⟨-, hdb⟩ := hok
        subst hdb
        exact h

/-- A successful `postDestroy` preserves the edge-uniqueness invariant
(the cascade only removes like rows). -/
theorem EdgeInv_postDestroy (db : DB) (caller : Option Nat) (up : Option String)
    (pid : Nat) (r : Response) (db2 : DB)
    (h : EdgeInv db) (hok : postDestroy db caller up pid = .ok (r, db2)) : EdgeInv db2 := by
  obtain ⟨h1, h2⟩ := h
  unfold postDestroy at hok
  split at hok
  · simp only [Except.ok.injEq, Prod.mk.injEq] at hok
    obtain ⟨-, hdb⟩ := hok
    subst hdb
    exact ⟨h1, h2⟩
  · split at hok
    · cases hok
    · split at hok
      · simp only [Except.ok.injEq, Prod.mk.injEq] at hok
        obtain ⟨-, hdb⟩ := hok
        subst hdb
        exact ⟨h1, h2⟩
      · simp only [Except.ok.injEq, Prod.mk.injEq] at hok
        obtain ⟨-, hdb⟩ := hok
        subst hdb
        exact ⟨h1, h2.sublist (List.filter_sublist _)⟩

/-- A successful comment creation preserves the edge-uniqueness
invariant (it can only add comment rows). -/
theorem EdgeInv_commentCreate (db : DB) (uid bpid : Nat) (c : String) (r : Response) (db2 : DB)
    (h : EdgeInv db) (hok : commentCreateEndpoint db uid bpid c = .ok (r, db2)) : EdgeInv db2 := by
  unfold commentCreateEndpoint commentPerformCreate commentListRouteKwargPostId at hok
  split at hok
  · simp only [Except.ok.injEq, Prod.mk.injEq] at hok
    obtain ⟨-, hdb⟩ := hok
    subst hdb
    exact h
  · cases hok

/-- The scheduled-post task preserves the edge-uniqueness invariant
(it only inserts a post row). -/
theorem EdgeInv_create_scheduled_post (db : DB) (uid : Nat) (c : String) (m : Option String)
    (db2 : DB) (h : EdgeInv db) (hok : create_scheduled_post db uid c m = .ok db2) :
    EdgeInv db2 := by
  unfold create_scheduled_post at hok
  split at hok
  · cases hok
  · simp only [Except.ok.injEq] at hok
    subst hok
    exact h

/-- C10: from any store satisfying the pair-uniqueness invariant (no
two FollowEdges share a (follower, following) pair and no two
LikeEdges share a (user, post) pair — the models' `unique_together`
constraints), every operation of the API preserves it: Follow and
ToggleLike create via get_or_create only when no row matched, so a
creation attempt on an existing pair never produces a duplicate, and
all other operations only delete or touch unrelated tables. -/
theorem edge_uniqueness_invariant (db : DB) (h : EdgeInv db) :
    (∀ a uname, EdgeInv (followView db a uname).2) ∧
    (∀ a uname, EdgeInv (unfollowView db a uname).2) ∧
    (∀ uid pid r db2, likeView db uid pid = .ok (r, db2) → EdgeInv db2) ∧
    (∀ caller content media, EdgeInv (postCreate db caller content media).2) ∧
    (∀ caller up pid c m r db2, postUpdate db caller up pid c m = .ok (r, db2) → EdgeInv db2) ∧
    (∀ caller up pid r db2, postDestroy db caller up pid = .ok (r, db2) → EdgeInv db2) ∧
    (∀ uid bpid c r db2, commentCreateEndpoint db uid bpid c = .ok (r, db2) → EdgeInv db2) ∧
    (∀ uid c m db2, create_scheduled_post db uid c m = .ok db2 → EdgeInv db2) := by
  refine ⟨?_, ?_, ?_, ?_, ?_, ?_, ?_, ?_⟩
  · intro a uname
    refine ⟨followPairUnique_followView db a uname h.1, ?_⟩
    unfold likePairUnique
    rw [followView_likes]
    exact h.2
  · intro a uname
    exact EdgeInv_unfollowView db a uname h
  · intro uid pid r db2 hok
    exact EdgeInv_likeView db uid pid r db2 h hok
  · intro caller content media
    unfold postCreate
    cases caller with
    | none => exact h
    | some uid => exact h
  · intro caller up pid c m r db2 hok
    exact EdgeInv_postUpdate db caller up pid c m r db2 h hok
  · intro caller up pid r db2 hok
    exact EdgeInv_postDestroy db caller up pid r db2 h hok
  · intro uid bpid c r db2 hok
    exact EdgeInv_commentCreate db uid bpid c r db2 h hok
  · intro uid c m db2 hok
    exact EdgeInv_create_scheduled_post db uid c m db2 h hok

/-- Witness for `edge_uniqueness_invariant` at a concrete store. -/
theorem edge_uniqueness_invariant_witness :
    EdgeInv exDBposts ∧
    ((∀ a uname, EdgeInv (followView exDBposts a uname).2) ∧
     (∀ a uname, EdgeInv (unfollowView exDBposts a uname).2) ∧
     (∀ uid pid r db2, likeView exDBposts uid pid = .ok (r, db2) → EdgeInv db2) ∧
     (∀ caller content media, EdgeInv (postCreate exDBposts caller content media).2) ∧
     (∀ caller up pid c m r db2,
        postUpdate exDBposts caller up pid c m = .ok (r, db2) → EdgeInv db2) ∧
     (∀ caller up pid r db2, postDestroy exDBposts caller up pid = .ok (r, db2) → EdgeInv db2) ∧
     (∀ uid bpid c r db2, commentCreateEndpoint exDBposts uid bpid c = .ok (r, db2) → EdgeInv db2) ∧
     (∀ uid c m db2, create_scheduled_post exDBposts uid c m = .ok db2 → EdgeInv db2)) :=
  ⟨⟨List.Pairwise.nil, List.Pairwise.nil⟩,
   edge_uniqueness_invariant exDBposts ⟨List.Pairwise.nil, List.Pairwise.nil⟩⟩

/-- Three users, no follow edges yet. -/
def exDB3 : DB :=
  { users := [exUser1, exUser2, exUser3], follows := [], posts := [], likes := [],
    comments := [], nextId := 40, clock := 0 }

/-- C8 counterexample: in a store where user 1 followed user 3 before
user 2, the spec's edge-creation-ascending order is [user3, user2] but
`FollowingListView` returns [user2, user3] — the user-table order —
so the lists are not ordered by edge creation time. -/
theorem following_order_counterexample :
    followingListView exDBfollows 1 = [exUser2, exUser3] ∧
    followingByEdgeOrderSpec exDBfollows 1 = [exUser3, exUser2] ∧
    followingListView exDBfollows 1 ≠ followingByEdgeOrderSpec exDBfollows 1 :=
  ⟨by rfl, by rfl, by decide⟩

/-- C8 (amended): ListFollowing(A) and ListFollowers(A) return exactly
the accounts on the respective side of A's follow edges, but in
account-table (insertion) order rather than follow-edge creation
order; in particular, after Follow(A, B) then Follow(A, C) where B
precedes C in the account table, ListFollowing(A) returns [B, C]. -/
theorem following_lists_table_order (db : DB) (a : Nat) :
    List.Sublist (followingListView db a) db.users ∧
    (∀ u, u ∈ followingListView db a ↔
      u ∈ db.users ∧ ∃ f ∈ db.follows, f.follower = a ∧ f.following = u.id) ∧
    List.Sublist (followersListView db a) db.users ∧
    (∀ u, u ∈ followersListView db a ↔
      u ∈ db.users ∧ ∃ f ∈ db.follows, f.following = a ∧ f.follower = u.id) ∧
    followingListView (followView (followView exDB3 1 "user2").2 1 "user3").2 1 =
      [exUser2, exUser3] := by
  refine ⟨List.filter_sublist _, ?_, List.filter_sublist _, ?_, by rfl⟩
  · intro u
    unfold followingListView
    simp [List.mem_filter]
    intro hu
    constructor
    · rintro ⟨f, ⟨hf, hfa⟩, hfu⟩
      exact ⟨f, hf, hfa, hfu⟩
    · rintro ⟨f, hf, hfa, hfu⟩
      exact ⟨f, ⟨hf, hfa⟩, hfu⟩
  · intro u
    unfold followersListView
    simp [List.mem_filter]
    intro hu
    constructor
    · rintro ⟨f, ⟨hf, hfa⟩, hfu⟩
      exact ⟨f, hf, hfa, hfu⟩
    · rintro ⟨f, hf, hfa, hfu⟩
      exact ⟨f, ⟨hf, hfa⟩, hfu⟩

/-- C2: SchedulePost with a scheduleTime in the past relative to the
server clock at submission fails with ValidationError (400) before any
task is enqueued and changes nothing; with a future scheduleTime it is
accepted with 201, the post is absent immediately (the store is
untouched and only a task is queued), a worker pass strictly before
scheduleTime changes nothing, and a worker pass at or after
scheduleTime invokes `create_scheduled_post` exactly once, adding
exactly one post with the scheduled author and content. -/
theorem schedule_post_behavior (s : SchedState) (callerId : Nat) (content : String)
    (media : Option String) (t : Nat) (u : User)
    (hu : userById s.db callerId = some u) (hq : s.queue = []) :
    (t < s.db.clock →
      schedulePost s callerId content media t =
        ({ status := 400, body := .errorMsg "schedule_time is in the past." }, s)) ∧
    (s.db.clock ≤ t →
      (schedulePost s callerId content media t).1 =
        { status := 201, body := .successMsg "Post scheduled." } ∧
      (schedulePost s callerId content media t).2.db = s.db ∧
      (schedulePost s callerId content media t).2.queue =
        [{ userId := callerId, content := content, media := media, executeAfter := t }] ∧
      (∀ now, now < t →
        runDueTasks (schedulePost s callerId content media t).2 now =
          (schedulePost s callerId content media t).2) ∧
      (∀ now, t ≤ now →
        (runDueTasks (schedulePost s callerId content media t).2 now).queue = [] ∧
        (runDueTasks (schedulePost s callerId content media t).2 now).db.posts =
          s.db.posts ++ [{ id := s.db.nextId, userId := u.id, content := content,
                           createdAt := now, media := media }])) := by
  obtain ⟨db0, q0⟩ := s
  simp only at hq hu
  subst hq
  constructor
  · intro hlt
    simp [schedulePost, hlt]
  · intro hle
    have hnot : ¬ (t < db0.clock) := not_lt.mpr hle
    have hsched : schedulePost ⟨db0, []⟩ callerId content media t =
        ({ status := 201, body := .successMsg "Post scheduled." },
         ⟨db0, [{ userId := callerId, content := content, media := media,
                  executeAfter := t }]⟩) := by
      simp [schedulePost, hnot]
    rw [hsched]
    refine ⟨rfl, rfl, rfl, ?_, ?_⟩
    · intro now hnow
      have hnd : ¬ (t ≤ now) := not_le.mpr hnow
      simp [runDueTasks, runQueue, hnd]
    · intro now hnow
      have hu2 : userById { db0 with clock := now } callerId = some u := hu
      have htask : create_scheduled_post { db0 with clock := now } callerId content media =
          .ok { db0 with
                  posts := db0.posts ++ [{ id := db0.nextId, userId := u.id, content := content,
                                           createdAt := now, media := media }],
                  nextId := db0.nextId + 1, clock := now + 1 } := by
        simp [create_scheduled_post, hu2]
      constructor
      · simp [runDueTasks, runQueue, hnow, htask]
      · simp [runDueTasks, runQueue, hnow, htask]

/-- Witness for `schedule_post_behavior` at a concrete store. -/
theorem schedule_post_behavior_witness :
    userById exDBposts 1 = some exUser1 ∧
    (SchedState.queue ⟨exDBposts, []⟩ = []) ∧
    ((9 < exDBposts.clock →
      schedulePost ⟨exDBposts, []⟩ 1 "hello" none 9 =
        ({ status := 400, body := .errorMsg "schedule_time is in the past." }, ⟨exDBposts, []⟩)) ∧
     (exDBposts.clock ≤ 9 →
      (schedulePost ⟨exDBposts, []⟩ 1 "hello" none 9).1 =
        { status := 201, body := .successMsg "Post scheduled." } ∧
      (schedulePost ⟨exDBposts, []⟩ 1 "hello" none 9).2.db = exDBposts ∧
      (schedulePost ⟨exDBposts, []⟩ 1 "hello" none 9).2.queue =
        [{ userId := 1, content := "hello", media := none, executeAfter := 9 }] ∧
      (∀ now, now < 9 →
        runDueTasks (schedulePost ⟨exDBposts, []⟩ 1 "hello" none 9).2 now =
          (schedulePost ⟨exDBposts, []⟩ 1 "hello" none 9).2) ∧
      (∀ now, 9 ≤ now →
        (runDueTasks (schedulePost ⟨exDBposts, []⟩ 1 "hello" none 9).2 now).queue = [] ∧
        (runDueTasks (schedulePost ⟨exDBposts, []⟩ 1 "hello" none 9).2 now).db.posts =
          exDBposts.posts ++ [{ id := exDBposts.nextId, userId := exUser1.id,
                                content := "hello", createdAt := now, media := none }]))) :=
  ⟨by rfl, by rfl, schedule_post_behavior ⟨exDBposts, []⟩ 1 "hello" none 9 exUser1 (by rfl) (by rfl)⟩

/-- C1 (the code evaluated at the failing input): `PostViewSet`
carries no ownership permission, so an authenticated non-author
(user 2) updating or deleting user 1's post through the
`?username=user1` query parameter succeeds (200 / 204) and mutates the
store instead of failing with PermissionError (403); without the
parameter the non-author gets 404 (NotFound), again not 403, because
`get_queryset` restricts the detail lookup to the caller's own posts;
the author's own update does succeed. -/
theorem post_write_ownership_not_enforced :
    postUpdate exDBposts (some 2) (some "user1") 10 "hacked" none =
      .ok ({ status := 200,
             body := .postJson { id := 10, userId := 1, content := "hacked",
                                 createdAt := 0, media := none } },
           { exDBposts with
              posts := [{ id := 10, userId := 1, content := "hacked", createdAt := 0,
                          media := none }, exPost2] }) ∧
    postDestroy exDBposts (some 2) (some "user1") 10 =
      .ok ({ status := 204, body := .empty }, { exDBposts with posts := [exPost2] }) ∧
    postUpdate exDBposts (some 2) none 10 "hacked" none =
      .ok ({ status := 404, body := .detailMsg "Not found." }, exDBposts) ∧
    postUpdate exDBposts (some 1) none 10 "edited" none =
      .ok ({ status := 200,
             body := .postJson { id := 10, userId := 1, content := "edited",
                                 createdAt := 0, media := none } },
           { exDBposts with
              posts := [{ id := 10, userId := 1, content := "edited", createdAt := 0,
                          media := none }, exPost2] }) :=
  ⟨by rfl, by rfl, by rfl, by rfl⟩

/-- C4 (the code evaluated at the failing input): GET /posts with no
username parameter does not return every stored post newest-first: an
authenticated caller receives only their own posts (here [post 10] out
of two stored posts, in insertion order), and an unauthenticated
caller's request raises an unhandled TypeError — the `get_queryset`
override filters by `request.user` and shadows the class-level
all-posts queryset with its `order_by("-created_at")`. -/
theorem post_list_not_all_posts :
    exDBposts.posts = [exPost1, exPost2] ∧
    postList exDBposts (some 1) none =
      .ok ({ status := 200, body := .postListJson [exPost1] }, exDBposts) ∧
    postList exDBposts none none =
      .error (.typeError "Field id expected a number but got AnonymousUser.") ∧
    ([exPost1] : List Post) ≠ [exPost1, exPost2] :=
  ⟨by rfl, by rfl, by rfl, by decide⟩

/-- C5 (the code evaluated at the failing input): ToggleLike on a post
id that refers to no existing post raises unhandled
`Post.DoesNotExist` (an HTTP 500 fault) instead of a handled 404 JSON
response; the exception fires before `get_or_create`, so no LikeEdge
is created or deleted. -/
theorem like_missing_post_unhandled :
    (∀ p ∈ exDBposts.posts, p.id ≠ 999) ∧
    likeView exDBposts 1 999 =
      .error (.doesNotExist "Post matching query does not exist.") ∧
    (∀ r db2, likeView exDBposts 1 999 ≠ .ok (r, db2)) :=
  ⟨by decide, by rfl, by
    intro r db2 h
    rw [show likeView exDBposts 1 999 =
          .error (.doesNotExist "Post matching query does not exist.") from rfl] at h
    simp at h⟩

/-- C9 (the code evaluated at the failing input): creating a comment
through the wired route `POST /comments/` (post id in the body, as the
repo's own test does) raises unhandled `KeyError: 'post_id'` — the
`DefaultRouter` list route supplies no `post_id` URL kwarg, yet
`perform_create` reads `self.kwargs['post_id']` — so no comment is
ever created instead of the expected 201. -/
theorem comment_create_missing_kwarg :
    commentListRouteKwargPostId = none ∧
    commentCreateEndpoint exDBposts 1 10 "Test comment content" = .error (.keyError "post_id") ∧
    (∀ r db2, commentCreateEndpoint exDBposts 1 10 "Test comment content" ≠ .ok (r, db2)) :=
  ⟨by rfl, by rfl, by
    intro r db2 h
    rw [show commentCreateEndpoint exDBposts 1 10 "Test comment content" =
          .error (.keyError "post_id") from rfl] at h
    simp at h⟩

end SocialMedia
